import Mathlib

/-!
Verification development for the GitHub issue-analysis pipeline
(`backend/app`): a shallow embedding of the URL/identity resolver
(`github_service.parse_github_url`), the transport-error mapping of
`github_service.fetch_issue`, the LLM response validator/repair layer
(`llm_service._parse_response`, `_validate_type`, `_validate_priority_score`,
`_validate_labels`), the bounded retry loop of `llm_service.analyze_issue`,
the two-tier cache (`utils/cache.CacheManager.get` / `set`), and the route
layer (`api/routes.analyze_issue`, `analyze_batch`).

Modelling conventions:
 - Python exceptions become an explicit `PyExc` inductive; fallible code
   returns `Except PyExc _`.
 - Parsed JSON documents become the `Json` inductive.  Python `None` and
   JSON `null` both load as `None`, so both are `Json.null`; a JSON object
   is an association list assumed duplicate-free (as produced by
   `json.loads`).  Numbers are modelled as integers (non-integer numeric
   literals are outside the scope of the verified claims).
 - Remote effects (the Gemini model, the Redis client, wall-clock time)
   become explicit oracle parameters: a function from call index to
   outcome for the model, a per-call outcome for Redis, and a `Nat`
   timestamp for `datetime.utcnow()`.
-/

/-- Python exception values that flow through the pipeline. -/
inductive PyExc where
  | jsonDecodeError (msg : String)
  | valueError (msg : String)
  | keyError (msg : String)
  | attributeError (msg : String)
  | typeError (msg : String)
  | validationError (msg : String)
  | httpStatusError (status : Nat)
  | httpException (status : Nat) (detail : String)
deriving DecidableEq

/-- A parsed JSON value (the result of `json.loads`).  `null` also stands
for Python `None` (e.g. the default of `dict.get`). -/
inductive Json where
  | null : Json
  | bool : Bool → Json
  | int : Int → Json
  | str : String → Json
  | arr : List Json → Json
  | obj : List (String × Json) → Json

/-- Lookup in a JSON object body, as `dict.__getitem__` presence. -/
def jlookup (kvs : List (String × Json)) (k : String) : Option Json :=
  kvs.lookup k

/-- Python `dict.get(k, default)` on a JSON object body. -/
def jget (kvs : List (String × Json)) (k : String) (d : Json) : Json :=
  (jlookup kvs k).getD d

/-- Python whitespace characters stripped by `str.strip()`. -/
def isPyWs (c : Char) : Bool :=
  c = ' ' || c = '\t' || c = '\n' || c = '\r' || c = '\x0b' || c = '\x0c'

/-- Python `str.strip()` on an explicit character list. -/
def pyStrip (s : List Char) : List Char :=
  ((s.dropWhile isPyWs).reverse.dropWhile isPyWs).reverse

/-- Python `str.strip()` on a `String`. -/
def pyStripStr (s : String) : String :=
  String.mk (pyStrip s.data)

/-- Python `str.rstrip('/')`. -/
def rstripSlash (s : List Char) : List Char :=
  (s.reverse.dropWhile (· = '/')).reverse

/-- Python `str.split('/')`: splits on every slash, keeping empty pieces;
the empty string yields one empty piece. -/
def splitSlash : List Char → List (List Char)
  | [] => [[]]
  | c :: rest =>
    if c = '/' then [] :: splitSlash rest
    else
      match splitSlash rest with
      | g :: gs => (c :: g) :: gs
      | [] => [[c]]

/-- Python `str.replace(".git", "")`: removes every occurrence of `.git`,
scanning left to right without overlap. -/
def stripGitAll : List Char → List Char
  | '.' :: 'g' :: 'i' :: 't' :: rest => stripGitAll rest
  | c :: rest => c :: stripGitAll rest
  | [] => []

/-- Python substring test `pat in s`. -/
def hasSub (pat : List Char) : List Char → Bool
  | [] => pat.isEmpty
  | c :: cs => pat.isPrefixOf (c :: cs) || hasSub pat cs

/-- Python `int(s)` on a string: optional surrounding whitespace, an
optional sign, then at least one decimal digit. -/
def pyIntOfStr (s : String) : Option Int :=
  let t := pyStrip s.data
  let core : List Char → Option (List Char) := fun l =>
    match l with
    | '-' :: ds => if ds = [] then none else some ds
    | '+' :: ds => if ds = [] then none else some ds
    | ds => if ds = [] then none else some ds
  match core t with
  | none => none
  | some ds =>
    if ds.all Char.isDigit then
      let mag : Int := Int.ofNat (ds.foldl (fun a c => a * 10 + c.toNat - '0'.toNat) 0)
      some (match t with
            | '-' :: _ => -mag
            | _ => mag)
    else none

/-- Python `int(x)` as applied to a decoded JSON value: integers pass
through, booleans count as 0/1 (`bool` is an `int` subclass), integer
strings convert, and everything else raises (`none`). -/
def pyInt : Json → Option Int
  | .int n => some n
  | .bool b => some (if b then 1 else 0)
  | .str s => pyIntOfStr s
  | _ => none

/-- Python `str(x)` for the values `_validate_labels` keeps
(strings, ints, bools). -/
def pyStrOf : Json → String
  | .str s => s
  | .int n => toString n
  | .bool b => if b then "True" else "False"
  | _ => ""

/-! ## Data model (`app/models/schemas.py`) -/

/-- Schema `PriorityScore`.  The `justification` field is passed through
from the model reply as-is, so it is kept as a raw `Json` value. -/
structure PriorityScore where
  score : Int
  justification : Json

/-- Schema `IssueAnalysis`.  The free-text fields (`summary`,
`potential_impact`) are passed through from the model reply as-is and
are kept as raw `Json` values; the validated fields carry their
validated types. -/
structure IssueAnalysis where
  summary : Json
  type : String
  priority_score : PriorityScore
  suggested_labels : List String
  potential_impact : Json

/-- Schema `AnalysisRequest` (a successfully validated request). -/
structure AnalysisRequest where
  github_url : String
  issue_number : Int
  use_cache : Bool

/-- The issue record built by `GitHubService.fetch_issue` on success. -/
structure GitHubIssue where
  title : String
  body : String
  comments : List String
  url : String
  state : String
  labels : List String
  created_at : String
  updated_at : String
  author : String
  reactions : List (String × Int)

/-! ## LLM service (`app/services/llm_service.py`) -/

namespace LLMService

/-- The five valid issue types accepted by `_validate_type`. -/
def valid_types : List String :=
  ["bug", "feature_request", "documentation", "question", "other"]

/-- Embeds `LLMService._validate_type`: any value outside the five enum
strings (including `None` for a missing key, and any non-string) is
coerced to `"other"`. -/
def validate_type (issue_type : Json) : String :=
  match issue_type with
  | .str s => if s ∈ valid_types then s else "other"
  | _ => "other"

/-- Embeds `LLMService._validate_priority_score`: `int(score)` succeeds and
lies in `[1,5]` → that integer; otherwise (including the `ValueError` /
`TypeError` raised by `int`) → `3`. -/
def validate_priority_score (score : Json) : Int :=
  match pyInt score with
  | some n => if 1 ≤ n ∧ n ≤ 5 then n else 3
  | none => 3

/-- Elements kept by `_validate_labels`: `isinstance(label, (str, int))`
(booleans are `int`s in Python). -/
def keepLabel : Json → Bool
  | .str _ => true
  | .int _ => true
  | .bool _ => true
  | _ => false

/-- Embeds `LLMService._validate_labels`: a non-list returns `[]`
immediately; for a list, keep the `str`/`int` elements, coerce each with
`str(label).strip()`, truncate to 5, and default to `["general"]` only
when that final list is empty. -/
def validate_labels (labels : Json) : List String :=
  match labels with
  | .arr xs =>
    let valid := ((xs.filter keepLabel).map (fun l => pyStripStr (pyStrOf l))).take 5
    if valid = [] then ["general"] else valid
  | _ => []

/-- Embeds the construction step of `LLMService._parse_response` on an
already-decoded JSON document `data`: field-level repair of `type`,
`priority_score.score` and `suggested_labels`, pass-through of the
free-text fields.  A non-object document, or a non-object
`priority_score` value, raises `AttributeError` from `.get` (which no
handler in `_parse_response` catches). -/
def parse_from_data (data : Json) : Except PyExc IssueAnalysis :=
  match data with
  | .obj kvs =>
    match jget kvs "priority_score" (.obj []) with
    | .obj pkvs =>
      .ok { summary := jget kvs "summary" (.str "")
            type := validate_type (jget kvs "type" .null)
            priority_score :=
              { score := validate_priority_score (jget pkvs "score" .null)
                justification := jget pkvs "justification" (.str "") }
            suggested_labels := validate_labels (jget kvs "suggested_labels" (.arr []))
            potential_impact := jget kvs "potential_impact" (.str "") }
    | _ => .error (.attributeError "get")
  | _ => .error (.attributeError "get")

/-- Embeds `LLMService._parse_response`, abstracted over the result of
markdown-fence extraction plus `json.loads` (`loaded`): a decode failure
(`json.JSONDecodeError`) is caught inside `_parse_response` and re-raised
as `ValueError("Invalid JSON in response: ...")`; a decoded document goes
through field construction. -/
def parse_response (loaded : Except String Json) : Except PyExc IssueAnalysis :=
  match loaded with
  | .error e => .error (.valueError ("Invalid JSON in response: " ++ e))
  | .ok data => parse_from_data data

/-- One model invocation, abstracted: the oracle maps the call index to
either a raised exception (transport failure / empty reply, the
`_call_gemini` error path) or the decode outcome of the returned text. -/
def GeminiOracle : Type := Nat → Except PyExc (Except String Json)

/-- Embeds `LLMService.analyze_issue`: `calls` is the number of model
invocations already made (the oracle index of the next call); the result
pairs the outcome with the total number of model invocations.  The
`jsonDecodeError` branch mirrors the source's `except json.JSONDecodeError`
handler, which re-invokes the model with the JSON-only instruction
appended (discarding that reply) and recurses; the catch-all branch
mirrors `except Exception`, which recurses without an extra call and
re-raises the last exception once the budget is spent. -/
def analyze_aux (oracle : GeminiOracle) (calls retry_count max_retries : Nat) :
    Except PyExc IssueAnalysis × Nat :=
  match oracle calls with
  | .error e =>
    if h : retry_count < max_retries then
      analyze_aux oracle (calls + 1) (retry_count + 1) max_retries
    else (.error e, calls + 1)
  | .ok loaded =>
    match parse_response loaded with
    | .ok a => (.ok a, calls + 1)
    | .error exc =>
      match exc with
      | .jsonDecodeError _ =>
        if h : retry_count < max_retries then
          analyze_aux oracle (calls + 2) (retry_count + 1) max_retries
        else
          (.error (.valueError
            ("Failed to parse LLM response after " ++ toString max_retries ++ " retries")),
           calls + 1)
      | e =>
        if h : retry_count < max_retries then
          analyze_aux oracle (calls + 1) (retry_count + 1) max_retries
        else (.error e, calls + 1)
termination_by max_retries - retry_count

/-- Embeds a top-level `analyze_issue` call with the source defaults
`retry_count=0`, `max_retries=3`. -/
def analyze_issue (oracle : GeminiOracle) : Except PyExc IssueAnalysis × Nat :=
  analyze_aux oracle 0 0 3

end LLMService

/-! ## GitHub service (`app/services/github_service.py`) -/

namespace GitHubService

/-- The host marker checked by `parse_github_url`. -/
def githubMarker : List Char := "github.com".data

/-- Embeds `GitHubService.parse_github_url`: strip whitespace and trailing
slashes; if `"github.com"` occurs in the result, split on `/`; with at
least two pieces, take the last two as `(owner, repo)` after removing
every `.git` from the final piece; return them when both are non-empty.
Every other path raises, and the internal `ValueError` is caught and
re-raised as `ValueError("Invalid GitHub URL: ...")` naming the stripped
URL. -/
def parse_github_url (url : String) : Except String (String × String) :=
  let u := rstripSlash (pyStrip url.data)
  let fail : Except String (String × String) :=
    .error ("Invalid GitHub URL: " ++ String.mk u)
  if hasSub githubMarker u then
    match (splitSlash u).reverse with
    | r0 :: o0 :: _ =>
      let repo := stripGitAll r0
      if o0 ≠ [] ∧ repo ≠ [] then .ok (String.mk o0, String.mk repo)
      else fail
    | _ => fail
  else fail

/-- Embeds the `except httpx.HTTPStatusError` mapping in
`GitHubService.fetch_issue`: a 404 becomes a `ValueError` naming owner,
repo and issue number; a 403 becomes a rate-limit `ValueError`, with a
token hint appended when no token was configured; any other status
re-raises the transport error. -/
def fetch_issue_exc (status : Nat) (has_token : Bool)
    (owner repo : String) (issue_number : Int) : PyExc :=
  if status = 404 then
    .valueError ("Issue #" ++ toString issue_number ++ " not found in " ++
      owner ++ "/" ++ repo)
  else if status = 403 then
    .valueError ("GitHub API rate limit exceeded." ++
      (if has_token then "" else " Add a GITHUB_TOKEN to .env to increase limits."))
  else .httpStatusError status

end GitHubService

/-! ## Cache (`app/utils/cache.py`) -/

namespace CacheUtil

/-- One in-memory cache entry: the stored value and its expiry instant
(`datetime.utcnow() + timedelta(seconds=ttl)` modelled on a `Nat`
timeline). -/
structure CacheEntry where
  value : Json
  expires_at : Nat

/-- The mutable state of a `CacheManager`: the in-process mapping
`in_memory_cache` and the configured default TTL. -/
structure CacheManager where
  in_memory_cache : String → Option CacheEntry
  ttl : Nat

/-- Outcome of one `redis_client.get` + `json.loads` round trip:
`val v` is a truthy, decodable reply; `empty` is a falsy reply (missing
key); `err` is any raised exception (connection or decode failure).
`Option RedisGetOutcome` with `none` models an absent `redis_client`. -/
inductive RedisGetOutcome where
  | val (v : Json)
  | empty
  | err

/-- Outcome of one `redis_client.setex` call; `none` at the use site
models an absent `redis_client`. -/
inductive RedisSetOutcome where
  | ok
  | err

/-- Embeds `CacheManager.get`: consult Redis first when a client exists,
returning a truthy decodable value directly; on a falsy value or any
exception fall through to the in-process mapping, where the entry is
returned while `expires_at > now` and otherwise deleted and reported
absent. -/
def CacheManager.get (redis : Option RedisGetOutcome) (self : CacheManager)
    (now : Nat) (key : String) : Option Json × CacheManager :=
  match redis with
  | some (.val v) => (some v, self)
  | _ =>
    match self.in_memory_cache key with
    | some entry =>
      if now < entry.expires_at then (some entry.value, self)
      else
        (none, { self with in_memory_cache :=
          fun k => if k = key then none else self.in_memory_cache k })
    | none => (none, self)

/-- Embeds `CacheManager.set`: `ttl = ttl or self.ttl` (a passed `0` is
falsy and falls back to the default); a successful Redis `setex` returns
`True` immediately without touching the in-process mapping; an absent
client or a Redis exception falls through to the in-process write, which
always succeeds. -/
def CacheManager.set (redis : Option RedisSetOutcome) (self : CacheManager)
    (now : Nat) (key : String) (value : Json) (ttl? : Option Nat) :
    Bool × CacheManager :=
  let ttl := match ttl? with
    | some t => if t = 0 then self.ttl else t
    | none => self.ttl
  match redis with
  | some .ok => (true, self)
  | _ =>
    (true, { self with in_memory_cache :=
      fun k => if k = key then some ⟨value, now + ttl⟩ else self.in_memory_cache k })

end CacheUtil

/-! ## Route layer (`app/api/routes.py`) -/

namespace Routes

/-- Outcome of the `/analyze` handler: a successful `AnalysisResponse`
(with its `metadata.cached` flag) or a raised `HTTPException` carrying a
status code and detail string. -/
inductive RouteOutcome where
  | success (data : IssueAnalysis) (cached : Bool)
  | httpError (status : Nat) (detail : String)

/-- The `str(e)` rendering used by the route's catch-all handler. -/
def pyStrOfExc : PyExc → String
  | .jsonDecodeError m => m
  | .valueError m => m
  | .keyError m => m
  | .attributeError m => m
  | .typeError m => m
  | .validationError m => m
  | .httpStatusError s => "HTTP status error " ++ toString s
  | .httpException s d => toString s ++ ": " ++ d

/-- The detail string produced by the route's catch-all `except Exception`
handler: the exception text only in debug mode. -/
def internalDetail (debug : Bool) (e : PyExc) : String :=
  if debug then "Internal server error: " ++ pyStrOfExc e else "Internal server error"

/-- Embeds `routes.analyze_issue`, abstracted over the outcomes of its
collaborators: the URL parse result, the cache lookup (consulted only
when `use_cache`), the repository-existence probe, the issue fetch and
the LLM analysis.  `HTTPException`s raised inside the body (400 for a
parse failure, 404 for a failed repository probe) are re-raised as-is;
every other exception — including `fetch_issue`'s `ValueError`s — reaches
the catch-all and becomes a 500. -/
def analyze_route (parsed : Except String (String × String)) (use_cache : Bool)
    (cached : Option IssueAnalysis) (repo_valid : Bool)
    (fetched : Except PyExc GitHubIssue)
    (analyzed : Except PyExc IssueAnalysis) (debug : Bool) : RouteOutcome :=
  match parsed with
  | .error e => .httpError 400 e
  | .ok (owner, repo) =>
    match (if use_cache then cached else none) with
    | some a => .success a true
    | none =>
      if ¬ repo_valid then
        .httpError 404 ("Repository " ++ owner ++ "/" ++ repo ++ " not found or is private")
      else
        match fetched with
        | .error e => .httpError 500 (internalDetail debug e)
        | .ok _ =>
          match analyzed with
          | .error e => .httpError 500 (internalDetail debug e)
          | .ok a => .success a false

/-- One raw batch item: the optional `github_url` / `issue_number` entries
of the posted dict (`none` models an absent key). -/
structure RawItem where
  github_url : Option String
  issue_number : Option Int

/-- One entry of the batch result list: the per-item `AnalysisResponse`,
or the `{"success": False, "error": detail}` dict recorded when the item's
`analyze_issue` call raised an `HTTPException`. -/
inductive BatchEntry where
  | ok (data : IssueAnalysis) (cached : Bool)
  | err (detail : String)

/-- Embeds the validation performed by constructing `AnalysisRequest`
(pydantic): `github_url` must contain `"github.com"` and `issue_number`
must be strictly positive, else a `ValidationError` is raised;
`use_cache` defaults to `True`. -/
def mk_request (u : String) (n : Int) : Except PyExc AnalysisRequest :=
  if ¬ hasSub GitHubService.githubMarker u.data then
    .error (.validationError "Must be a valid GitHub URL")
  else if ¬ 0 < n then
    .error (.validationError "issue_number must be greater than 0")
  else .ok ⟨u, n, true⟩

/-- The per-item loop of `routes.analyze_batch`: `item["github_url"]` /
`item["issue_number"]` raise `KeyError` on an absent key and
`AnalysisRequest(...)` raises `ValidationError` on bad values — neither
is caught, so either aborts the whole batch; an `HTTPException` raised by
`analyze_issue` is caught and recorded as a per-item error entry. -/
def batch_loop (pipeline : AnalysisRequest → RouteOutcome) :
    List RawItem → Except PyExc (List BatchEntry)
  | [] => .ok []
  | item :: rest =>
    match item.github_url with
    | none => .error (.keyError "github_url")
    | some u =>
      match item.issue_number with
      | none => .error (.keyError "issue_number")
      | some n =>
        match mk_request u n with
        | .error e => .error e
        | .ok req =>
          let entry := match pipeline req with
            | .success a c => BatchEntry.ok a c
            | .httpError _ d => BatchEntry.err d
          match batch_loop pipeline rest with
          | .error e => .error e
          | .ok entries => .ok (entry :: entries)

/-- Embeds `routes.analyze_batch`: more than 5 items raises
`HTTPException(400)` before any item is touched; otherwise the per-item
loop runs and the response reports the entries and the submitted count. -/
def analyze_batch (pipeline : AnalysisRequest → RouteOutcome)
    (items : List RawItem) : Except PyExc (List BatchEntry × Nat) :=
  if items.length > 5 then .error (.httpException 400 "Maximum 5 issues per batch")
  else
    match batch_loop pipeline items with
    | .error e => .error e
    | .ok entries => .ok (entries, items.length)

end Routes

/-! ## Shared lemmas about the response validator -/

/-- The `IssueAnalysis` record that `_parse_response` builds from a decoded
object `kvs` whose `priority_score` entry decodes to the object `pkvs`. -/
def builtAnalysis (kvs pkvs : List (String × Json)) : IssueAnalysis :=
  { summary := jget kvs "summary" (.str "")
    type := LLMService.validate_type (jget kvs "type" .null)
    priority_score :=
      { score := LLMService.validate_priority_score (jget pkvs "score" .null)
        justification := jget pkvs "justification" (.str "") }
    suggested_labels := LLMService.validate_labels (jget kvs "suggested_labels" (.arr []))
    potential_impact := jget kvs "potential_impact" (.str "") }

theorem parse_from_data_inv (data : Json) (a : IssueAnalysis)
    (h : LLMService.parse_from_data data = .ok a) :
    ∃ kvs pkvs, data = .obj kvs ∧
      jget kvs "priority_score" (.obj []) = .obj pkvs ∧ a = builtAnalysis kvs pkvs := by
  cases data with
  | obj kvs =>
    simp only [LLMService.parse_from_data] at h
    split at h
    · rename_i pkvs heq
      refine ⟨kvs, pkvs, rfl, heq, ?_⟩
      injection h with h2
      exact h2.symm
    · simp at h
  | null => simp [LLMService.parse_from_data] at h
  | bool b => simp [LLMService.parse_from_data] at h
  | int n => simp [LLMService.parse_from_data] at h
  | str s => simp [LLMService.parse_from_data] at h
  | arr xs => simp [LLMService.parse_from_data] at h

theorem validate_type_mem (j : Json) :
    LLMService.validate_type j ∈ LLMService.valid_types := by
  cases j with
  | str s =>
    by_cases h : s ∈ LLMService.valid_types
    · simp only [LLMService.validate_type, if_pos h]
      exact h
    · simp only [LLMService.validate_type, if_neg h]
      simp [LLMService.valid_types]
  | null => simp [LLMService.validate_type, LLMService.valid_types]
  | bool b => simp [LLMService.validate_type, LLMService.valid_types]
  | int n => simp [LLMService.validate_type, LLMService.valid_types]
  | arr xs => simp [LLMService.validate_type, LLMService.valid_types]
  | obj kvs => simp [LLMService.validate_type, LLMService.valid_types]

/-- C9: Every `IssueAnalysis` produced by response parsing has a `type`
among the five enum values; a missing `type` key (and any non-enum value)
is coerced to `"other"` before the record is ever built, so no invalid
type reaches the caller or the cache. -/
theorem C9_type_always_valid_enum :
    (∀ (data : Json) (a : IssueAnalysis),
      LLMService.parse_from_data data = .ok a → a.type ∈ LLMService.valid_types) ∧
    (∀ (kvs : List (String × Json)) (a : IssueAnalysis),
      LLMService.parse_from_data (.obj kvs) = .ok a →
      jlookup kvs "type" = none → a.type = "other") ∧
    (∀ j : Json, (∀ s, j = Json.str s → s ∉ LLMService.valid_types) →
      LLMService.validate_type j = "other") := by
  refine ⟨?_, ?_, ?_⟩
  · intro data a h
    obtain ⟨kvs, pkvs, -, -, ha⟩ := parse_from_data_inv data a h
    rw [ha]
    exact validate_type_mem _
  · intro kvs a h hnone
    obtain ⟨kvs', pkvs, hk, -, ha⟩ := parse_from_data_inv _ a h
    injection hk with hk
    subst hk
    rw [ha]
    simp [builtAnalysis, jget, hnone, LLMService.validate_type]
  · intro j hj
    cases j with
    | str s => simp [LLMService.validate_type, hj s rfl]
    | null => rfl
    | bool b => rfl
    | int n => rfl
    | arr xs => rfl
    | obj kvs => rfl

/-- Witness for C9 at a concrete reply: the empty JSON object parses and
its `type` is a valid enum member (namely `"other"`). -/
theorem C9_witness :
    (builtAnalysis [] []).type ∈ LLMService.valid_types :=
  C9_type_always_valid_enum.1 (Json.obj []) (builtAnalysis [] []) rfl

/-- C5: For every parsed model reply, the resulting `priority_score.score`
equals the integer conversion of the supplied score when that conversion
lies in `[1,5]`, and equals exactly `3` when the value is non-numeric or
out of range; the repair is a total function and a structurally-valid
reply is answered after exactly one model invocation, so no retry is
consumed. -/
theorem C5_priority_score_repair :
    (∀ (kvs pkvs : List (String × Json)) (a : IssueAnalysis),
      LLMService.parse_from_data (.obj kvs) = .ok a →
      jget kvs "priority_score" (.obj []) = .obj pkvs →
      a.priority_score.score = LLMService.validate_priority_score (jget pkvs "score" .null)) ∧
    (∀ (j : Json) (n : Int), pyInt j = some n → 1 ≤ n → n ≤ 5 →
      LLMService.validate_priority_score j = n) ∧
    (∀ (j : Json) (n : Int), pyInt j = some n → (n < 1 ∨ 5 < n) →
      LLMService.validate_priority_score j = 3) ∧
    (∀ j : Json, pyInt j = none → LLMService.validate_priority_score j = 3) ∧
    (∀ (oracle : LLMService.GeminiOracle) (data : Json) (a : IssueAnalysis) (m : Nat),
      oracle 0 = .ok (.ok data) → LLMService.parse_from_data data = .ok a →
      LLMService.analyze_aux oracle 0 0 m = (.ok a, 1)) := by
  refine ⟨?_, ?_, ?_, ?_, ?_⟩
  · intro kvs pkvs a h hp
    obtain ⟨kvs', pkvs', hk, hp', ha⟩ := parse_from_data_inv _ a h
    injection hk with hk
    subst hk
    rw [hp] at hp'
    injection hp' with hpk
    subst hpk
    rw [ha]
    rfl
  · intro j n hj h1 h2
    unfold LLMService.validate_priority_score
    rw [hj]
    simp [h1, h2]
  · intro j n hj hout
    unfold LLMService.validate_priority_score
    rw [hj]
    have hn : ¬ (1 ≤ n ∧ n ≤ 5) := by omega
    simp [hn]
  · intro j hj
    unfold LLMService.validate_priority_score
    rw [hj]
  · intro oracle data a m h0 hp
    rw [LLMService.analyze_aux]
    rw [h0]
    simp [LLMService.parse_response, hp]

/-- Witness for C5 at the spec's own examples: in-range `4` is kept, `0`,
`7` and `"high"` are repaired to `3`. -/
theorem C5_priority_score_witness :
    LLMService.validate_priority_score (Json.int 4) = 4 ∧
    LLMService.validate_priority_score (Json.int 0) = 3 ∧
    LLMService.validate_priority_score (Json.int 7) = 3 ∧
    LLMService.validate_priority_score (Json.str "high") = 3 :=
  ⟨C5_priority_score_repair.2.1 _ 4 rfl (by decide) (by decide),
   C5_priority_score_repair.2.2.1 _ 0 rfl (by decide),
   C5_priority_score_repair.2.2.1 _ 7 rfl (by decide),
   C5_priority_score_repair.2.2.2.1 _ rfl⟩

/-- C2 counterexample: a reply supplying the non-sequence `"bug"` as
`suggested_labels` yields `[]`, not `["general"]` — the early
`return []` of `_validate_labels` bypasses the empty-list default the
claim (and spec) describe. -/
theorem C2_counterexample :
    (LLMService.parse_from_data (Json.obj [("suggested_labels", Json.str "bug")])).map
      IssueAnalysis.suggested_labels = .ok [] ∧
    LLMService.validate_labels (Json.str "bug") ≠ ["general"] := by
  exact ⟨rfl, by decide⟩

/-- C2 amended: a reply missing `suggestedLabels` yields `["general"]`,
but a supplied non-sequence yields `[]` (the default is bypassed); for a
sequence, elements that are not strings or integers are dropped, the kept
ones are coerced to trimmed strings, the list is truncated to 5, and
`["general"]` is substituted only when that final list is empty — so the
result of the sequence path is never empty, and every result has at most
5 labels. -/
theorem C2_labels_repair :
    (∀ (kvs : List (String × Json)) (a : IssueAnalysis),
      LLMService.parse_from_data (.obj kvs) = .ok a →
      a.suggested_labels = LLMService.validate_labels (jget kvs "suggested_labels" (.arr []))) ∧
    (∀ (kvs : List (String × Json)) (a : IssueAnalysis),
      LLMService.parse_from_data (.obj kvs) = .ok a →
      jlookup kvs "suggested_labels" = none → a.suggested_labels = ["general"]) ∧
    (∀ j : Json, (∀ xs, j ≠ .arr xs) → LLMService.validate_labels j = []) ∧
    (∀ xs : List Json, LLMService.validate_labels (.arr xs) =
      (let vs := ((xs.filter LLMService.keepLabel).map (fun l => pyStripStr (pyStrOf l))).take 5
       if vs = [] then ["general"] else vs)) ∧
    (∀ xs : List Json, LLMService.validate_labels (.arr xs) ≠ []) ∧
    (∀ j : Json, (LLMService.validate_labels j).length ≤ 5) := by
  refine ⟨?_, ?_, ?_, ?_, ?_, ?_⟩
  · intro kvs a h
    obtain ⟨kvs', pkvs', hk, -, ha⟩ := parse_from_data_inv _ a h
    injection hk with hk
    subst hk
    rw [ha]
    rfl
  · intro kvs a h hnone
    obtain ⟨kvs', pkvs', hk, -, ha⟩ := parse_from_data_inv _ a h
    injection hk with hk
    subst hk
    rw [ha]
    simp [builtAnalysis, jget, hnone]
    rfl
  · intro j hj
    cases j with
    | arr xs => exact absurd rfl (hj xs)
    | null => rfl
    | bool b => rfl
    | int n => rfl
    | str s => rfl
    | obj kvs => rfl
  · intro xs
    rfl
  · intro xs
    show (if ((xs.filter LLMService.keepLabel).map
        (fun l => pyStripStr (pyStrOf l))).take 5 = []
      then ["general"]
      else ((xs.filter LLMService.keepLabel).map (fun l => pyStripStr (pyStrOf l))).take 5) ≠ []
    split
    · simp
    · rename_i hv
      exact hv
  · intro j
    cases j with
    | arr xs =>
      show (if ((xs.filter LLMService.keepLabel).map
          (fun l => pyStripStr (pyStrOf l))).take 5 = []
        then ["general"]
        else ((xs.filter LLMService.keepLabel).map (fun l => pyStripStr (pyStrOf l))).take 5).length ≤ 5
      split
      · simp
      · exact List.length_take_le 5 _
    | null => simp [LLMService.validate_labels]
    | bool b => simp [LLMService.validate_labels]
    | int n => simp [LLMService.validate_labels]
    | str s => simp [LLMService.validate_labels]
    | obj kvs => simp [LLMService.validate_labels]

/-- Witness for C2 at a concrete reply: a reply with no `suggested_labels`
key yields exactly `["general"]`. -/
theorem C2_labels_witness :
    (builtAnalysis [] []).suggested_labels = ["general"] :=
  C2_labels_repair.2.1 [] (builtAnalysis [] []) rfl rfl

/-- C7: In the in-process tier (no Redis client on either call), a value
written with TTL `t` is returned identically by a `get` strictly before
`now + t`, and a `get` strictly after `now + t` reports absent and removes
the entry from the in-process mapping — expiry is enforced lazily on read
by comparing the current time to `expires_at`. -/
theorem C7_in_process_ttl :
    ∀ (self : CacheUtil.CacheManager) (now nowr t : Nat) (key : String) (value : Json),
      0 < t →
      (nowr < now + t →
        CacheUtil.CacheManager.get none
          (CacheUtil.CacheManager.set none self now key value (some t)).2 nowr key =
        (some value, (CacheUtil.CacheManager.set none self now key value (some t)).2)) ∧
      (now + t < nowr →
        (CacheUtil.CacheManager.get none
          (CacheUtil.CacheManager.set none self now key value (some t)).2 nowr key).1 = none ∧
        ((CacheUtil.CacheManager.get none
          (CacheUtil.CacheManager.set none self now key value (some t)).2 nowr key).2).in_memory_cache
          key = none) := by
  intro self now nowr t key value ht
  have ht0 : ¬ t = 0 := by omega
  have hset : (CacheUtil.CacheManager.set none self now key value (some t)).2 =
      { self with in_memory_cache :=
        fun k => if k = key then some ⟨value, now + t⟩ else self.in_memory_cache k } := by
    unfold CacheUtil.CacheManager.set
    simp [ht0]
  rw [hset]
  constructor
  · intro h1
    unfold CacheUtil.CacheManager.get
    simp [h1]
  · intro h2
    have h2n : ¬ nowr < now + t := by omega
    unfold CacheUtil.CacheManager.get
    simp [h2n]

/-- Witness for C7: a value set at time 0 with TTL 10 is returned at time 5
and is expired (absent) at time 11. -/
theorem C7_witness :
    (CacheUtil.CacheManager.get none
      (CacheUtil.CacheManager.set none ⟨fun _ => none, 86400⟩ 0 "k" (Json.str "v") (some 10)).2
      5 "k").1 = some (Json.str "v") ∧
    (CacheUtil.CacheManager.get none
      (CacheUtil.CacheManager.set none ⟨fun _ => none, 86400⟩ 0 "k" (Json.str "v") (some 10)).2
      11 "k").1 = none :=
  ⟨by rw [(C7_in_process_ttl ⟨fun _ => none, 86400⟩ 0 5 10 "k" (Json.str "v") (by decide)).1
      (by decide)],
   ((C7_in_process_ttl ⟨fun _ => none, 86400⟩ 0 11 10 "k" (Json.str "v") (by decide)).2
      (by decide)).1⟩

/-- C8: `CacheManager.set` never fails: it returns `True` for every Redis
outcome, and when the primary write raises, the value is still written to
the in-process mapping — a primary write failure is never surfaced. -/
theorem C8_set_never_fails :
    (∀ (redis : Option CacheUtil.RedisSetOutcome) (self : CacheUtil.CacheManager)
       (now : Nat) (key : String) (value : Json) (ttl? : Option Nat),
      (CacheUtil.CacheManager.set redis self now key value ttl?).1 = true) ∧
    (∀ (self : CacheUtil.CacheManager) (now : Nat) (key : String) (value : Json)
       (ttl? : Option Nat),
      ∃ exp, ((CacheUtil.CacheManager.set (some .err) self now key value ttl?).2).in_memory_cache
        key = some ⟨value, exp⟩) := by
  constructor
  · intro redis self now key value ttl?
    unfold CacheUtil.CacheManager.set
    rcases redis with _ | r
    · rfl
    · cases r <;> rfl
  · intro self now key value ttl?
    refine ⟨now + (match ttl? with | some t => if t = 0 then self.ttl else t | none => self.ttl),
      ?_⟩
    unfold CacheUtil.CacheManager.set
    simp

/-- C10: when the primary (Redis) write succeeds, `set` returns `True`
without modifying the in-process state at all; consequently a key stored
only through a healthy primary is absent from the in-process fallback
when the primary later fails on read. -/
theorem C10_primary_write_skips_fallback :
    (∀ (self : CacheUtil.CacheManager) (now : Nat) (key : String) (value : Json)
       (ttl? : Option Nat),
      CacheUtil.CacheManager.set (some .ok) self now key value ttl? = (true, self)) ∧
    (∀ (self : CacheUtil.CacheManager) (now : Nat) (key : String),
      self.in_memory_cache key = none →
      (CacheUtil.CacheManager.get (some .err) self now key).1 = none) := by
  constructor
  · intro self now key value ttl?
    rfl
  · intro self now key h
    unfold CacheUtil.CacheManager.get
    simp [h]

/-- Witness for C10: with an empty in-process mapping and an erroring
primary read, `get` reports absent. -/
theorem C10_witness :
    (CacheUtil.CacheManager.get (some .err) ⟨fun _ => none, 86400⟩ 0 "acme/widgets#42").1 =
      none :=
  C10_primary_write_skips_fallback.2 ⟨fun _ => none, 86400⟩ 0 "acme/widgets#42" rfl

/-- C3 counterexample: the resolver does not fail when only one path
segment follows the host — `"https://github.com/widgets"` succeeds with
the host itself taken as the owner — and `.replace('.git', '')` removes a
non-trailing `.git`, so `"https://github.com/acme/a.gitb"` yields repo
`"ab"`, not `"a.gitb"` as a trailing-suffix strip would. -/
theorem C3_counterexample :
    GitHubService.parse_github_url "https://github.com/widgets" =
      .ok ("github.com", "widgets") ∧
    GitHubService.parse_github_url "https://github.com/acme/a.gitb" = .ok ("acme", "ab") ∧
    ("ab" : String) ≠ "a.gitb" :=
  ⟨rfl, rfl, by decide⟩

/-- C3 amended: `parse_github_url` is a pure, deterministic function that
strips surrounding whitespace and trailing slashes, and succeeds exactly
when `"github.com"` occurs somewhere in the result, splitting on `/`
leaves at least two pieces (the host or even the scheme may serve as the
owner piece), and the last two pieces are non-empty after removing every
occurrence of `.git` from the final piece; the result is those two pieces
in order, and every failure is the `ValueError` naming the stripped URL. -/
theorem C3_resolver_characterization :
    ∀ url : String,
      (∀ o r, GitHubService.parse_github_url url = .ok (o, r) ↔
        hasSub GitHubService.githubMarker (rstripSlash (pyStrip url.data)) = true ∧
        ∃ r0 o0 t, (splitSlash (rstripSlash (pyStrip url.data))).reverse = r0 :: o0 :: t ∧
          o0 ≠ [] ∧ stripGitAll r0 ≠ [] ∧
          o = String.mk o0 ∧ r = String.mk (stripGitAll r0)) ∧
      (∀ e, GitHubService.parse_github_url url = .error e →
        e = "Invalid GitHub URL: " ++ String.mk (rstripSlash (pyStrip url.data))) := by
  intro url
  constructor
  · intro o r
    constructor
    · intro h
      simp only [GitHubService.parse_github_url] at h
      split at h
      · rename_i hm
        refine ⟨hm, ?_⟩
        split at h
        · rename_i r0 o0 t hrev
          split at h
          · rename_i hc
            injection h with h2
            injection h2 with ho hr
            exact ⟨r0, o0, t, hrev, hc.1, hc.2, ho.symm, hr.symm⟩
          · simp at h
        · simp at h
      · simp at h
    · rintro ⟨hm, r0, o0, t, hrev, ho0, hr0, rfl, rfl⟩
      simp only [GitHubService.parse_github_url]
      rw [if_pos hm, hrev]
      simp [ho0, hr0]
  · intro e h
    simp only [GitHubService.parse_github_url] at h
    split at h
    · split at h
      · split at h
        · simp at h
        · injection h with h2
          exact h2.symm
      · injection h with h2
        exact h2.symm
    · injection h with h2
      exact h2.symm

/-- Witness for C3 at a concrete URL: the characterization applied at
`"https://github.com/acme/widgets.git"` gives owner `acme`, repo
`widgets`. -/
theorem C3_resolver_witness :
    GitHubService.parse_github_url "https://github.com/acme/widgets.git" =
      .ok ("acme", "widgets") :=
  ((C3_resolver_characterization "https://github.com/acme/widgets.git").1
    "acme" "widgets").mpr
    ⟨rfl, "widgets.git".data, "acme".data, ["github.com".data, [], "https:".data],
      rfl, by decide, by decide, rfl, rfl⟩

/-- C4 counterexample: with a validated repository and the fetch raising
the issue-not-found `ValueError` (the fetcher's mapping of a 404
transport response), the analyze route answers 500, not the 404 the claim
requires for a missing issue. -/
theorem C4_counterexample :
    Routes.analyze_route (.ok ("acme", "widgets")) true none true
      (.error (GitHubService.fetch_issue_exc 404 false "acme" "widgets" 42))
      (.ok (builtAnalysis [] [])) false
      = .httpError 500 "Internal server error" ∧
    (500 : Nat) ≠ 404 :=
  ⟨rfl, by decide⟩

/-- C4 amended: the analyze route maps an identity parse failure to 400
and a failed repository probe to 404; `fetch_issue` does map a 404
transport response to a `ValueError` naming owner, repo and issue number,
but the route has no specific handler for it, so a missing issue — like
any other exception from the fetch or analysis steps — surfaces as 500
through the catch-all. -/
theorem C4_error_taxonomy :
    (∀ (e : String) (uc : Bool) (cached : Option IssueAnalysis) (valid : Bool)
       (fetched : Except PyExc GitHubIssue) (analyzed : Except PyExc IssueAnalysis)
       (debug : Bool),
      Routes.analyze_route (.error e) uc cached valid fetched analyzed debug =
        .httpError 400 e) ∧
    (∀ (o r : String) (uc : Bool) (cached : Option IssueAnalysis)
       (fetched : Except PyExc GitHubIssue) (analyzed : Except PyExc IssueAnalysis)
       (debug : Bool),
      (if uc then cached else none) = none →
      Routes.analyze_route (.ok (o, r)) uc cached false fetched analyzed debug =
        .httpError 404 ("Repository " ++ o ++ "/" ++ r ++ " not found or is private")) ∧
    (∀ (has_token : Bool) (o r : String) (n : Int),
      GitHubService.fetch_issue_exc 404 has_token o r n =
        .valueError ("Issue #" ++ toString n ++ " not found in " ++ o ++ "/" ++ r)) ∧
    (∀ (o r : String) (uc : Bool) (cached : Option IssueAnalysis) (e : PyExc)
       (analyzed : Except PyExc IssueAnalysis) (debug : Bool),
      (if uc then cached else none) = none →
      Routes.analyze_route (.ok (o, r)) uc cached true (.error e) analyzed debug =
        .httpError 500 (Routes.internalDetail debug e)) ∧
    (∀ (o r : String) (uc : Bool) (cached : Option IssueAnalysis) (issue : GitHubIssue)
       (e : PyExc) (debug : Bool),
      (if uc then cached else none) = none →
      Routes.analyze_route (.ok (o, r)) uc cached true (.ok issue) (.error e) debug =
        .httpError 500 (Routes.internalDetail debug e)) := by
  refine ⟨?_, ?_, ?_, ?_, ?_⟩
  · intro e uc cached valid fetched analyzed debug
    rfl
  · intro o r uc cached fetched analyzed debug hnone
    simp only [Routes.analyze_route]
    rw [hnone]
    simp
  · intro has_token o r n
    rfl
  · intro o r uc cached e analyzed debug hnone
    simp only [Routes.analyze_route]
    rw [hnone]
    simp
  · intro o r uc cached issue e debug hnone
    simp only [Routes.analyze_route]
    rw [hnone]
    simp

/-- Witness for C4 at a concrete request: without a cache hit, a failed
probe gives 404 and a fetch-time issue-not-found gives 500. -/
theorem C4_witness :
    Routes.analyze_route (.ok ("acme", "widgets")) false none false
      (.ok ⟨"t", "b", [], "u", "open", [], "c", "u2", "a", []⟩)
      (.ok (builtAnalysis [] [])) false =
      .httpError 404 "Repository acme/widgets not found or is private" ∧
    Routes.analyze_route (.ok ("acme", "widgets")) false none true
      (.error (GitHubService.fetch_issue_exc 404 false "acme" "widgets" 7))
      (.ok (builtAnalysis [] [])) true =
      .httpError 500
        "Internal server error: Issue #7 not found in acme/widgets" :=
  ⟨C4_error_taxonomy.2.1 "acme" "widgets" false none
      (.ok ⟨"t", "b", [], "u", "open", [], "c", "u2", "a", []⟩)
      (.ok (builtAnalysis [] [])) false rfl,
   C4_error_taxonomy.2.2.2.1 "acme" "widgets" false none
      (GitHubService.fetch_issue_exc 404 false "acme" "widgets" 7)
      (.ok (builtAnalysis [] [])) true rfl⟩

/-- C6: the batch route rejects 6 items with a 400 before touching any
item, and a per-item `HTTPException` is recorded as a per-item error
entry without aborting the rest — but an item whose dict lacks
`issue_number` raises an uncaught `KeyError` that aborts the whole batch,
contradicting the claim's per-item isolation (the spec's design notes
call this a bug to fix). -/
theorem C6_batch_behavior :
    Routes.analyze_batch (fun _ => .success (builtAnalysis [] []) false)
      (List.replicate 6 ⟨some "https://github.com/a/b", some 1⟩) =
      .error (.httpException 400 "Maximum 5 issues per batch") ∧
    Routes.analyze_batch (fun _ => .success (builtAnalysis [] []) false)
      [⟨some "https://github.com/a/b", some 1⟩, ⟨some "https://github.com/a/b", none⟩] =
      .error (.keyError "issue_number") ∧
    Routes.analyze_batch
      (fun req => if req.issue_number = 1 then .httpError 404 "nf"
        else .success (builtAnalysis [] []) false)
      [⟨some "https://github.com/a/b", some 1⟩, ⟨some "https://github.com/a/b", some 2⟩] =
      .ok ([.err "nf", .ok (builtAnalysis [] []) false], 2) :=
  ⟨rfl, rfl, rfl⟩

/-- When every model call returns text whose JSON decode fails, each level
of `analyze_issue` makes exactly one model call: `_parse_response`
converts the `json.JSONDecodeError` into a plain `ValueError`, so the
generic `except Exception` handler (not the JSON-specific one) drives the
recursion, and exhaustion re-raises the last parser error. -/
theorem analyze_aux_allbad (msgs : Nat → String) (m : Nat) :
    ∀ k c, k ≤ m →
      LLMService.analyze_aux (fun n => .ok (.error (msgs n))) c (m - k) m =
        (.error (.valueError ("Invalid JSON in response: " ++ msgs (c + k))), c + k + 1) := by
  intro k
  induction k with
  | zero =>
    intro c _
    rw [LLMService.analyze_aux]
    have hnot : ¬ (m - 0 < m) := by omega
    simp [LLMService.parse_response, hnot]
  | succ k ih =>
    intro c hk
    rw [LLMService.analyze_aux]
    have hlt : m - (k + 1) < m := by omega
    simp only [LLMService.parse_response, dif_pos hlt]
    have hstep : m - (k + 1) + 1 = m - k := by omega
    rw [hstep, ih (c + 1) (by omega)]
    have hce : c + 1 + k = c + (k + 1) := by omega
    rw [hce]

/-- C1 amended: if the model returns unparseable text on every attempt,
`analyze_issue` terminates after exactly `maxRetries + 1` model
invocations — but the failure it reports is the parser's invalid-JSON
`ValueError` from the final attempt, not a message naming the exhausted
retry budget, because `_parse_response` re-raises `json.JSONDecodeError`
as a plain `ValueError`, making the JSON-specific handler (the one that
would re-invoke with an appended JSON-only instruction and report the
budget) unreachable. -/
theorem C1_retry_bound :
    (∀ (msgs : Nat → String) (m : Nat),
      LLMService.analyze_aux (fun n => .ok (.error (msgs n))) 0 0 m =
        (.error (.valueError ("Invalid JSON in response: " ++ msgs m)), m + 1)) ∧
    (∀ (loaded : Except String Json) (msg : String),
      LLMService.parse_response loaded ≠ .error (.jsonDecodeError msg)) := by
  constructor
  · intro msgs m
    have h := analyze_aux_allbad msgs m m 0 (le_refl m)
    rw [Nat.sub_self] at h
    simpa using h
  · intro loaded msg
    cases loaded with
    | error e => simp [LLMService.parse_response]
    | ok data =>
      cases data with
      | obj kvs =>
        simp only [LLMService.parse_response, LLMService.parse_from_data]
        split
        · simp
        · simp
      | null => simp [LLMService.parse_response, LLMService.parse_from_data]
      | bool b => simp [LLMService.parse_response, LLMService.parse_from_data]
      | int n => simp [LLMService.parse_response, LLMService.parse_from_data]
      | str s => simp [LLMService.parse_response, LLMService.parse_from_data]
      | arr xs => simp [LLMService.parse_response, LLMService.parse_from_data]

/-- Witness for C1: with the default budget of 3 retries and a model that
always answers undecodable text, exactly 4 invocations happen; and the
parser never emits a `json.JSONDecodeError` on a concrete input. -/
theorem C1_retry_witness :
    LLMService.analyze_aux (fun _ => .ok (.error "bad")) 0 0 3 =
      (.error (.valueError "Invalid JSON in response: bad"), 4) ∧
    LLMService.parse_response (.ok Json.null) ≠ .error (.jsonDecodeError "x") :=
  ⟨C1_retry_bound.1 (fun _ => "bad") 3, C1_retry_bound.2 (.ok Json.null) "x"⟩

/-- C1 counterexample: running `analyze_issue` (defaults: `max_retries=3`)
against a model whose replies never decode yields the parser's
invalid-JSON `ValueError` after 4 invocations, which is not the
budget-exhausted parse-failure message the claim (and the source's dead
`except json.JSONDecodeError` branch) promises. -/
theorem C1_counterexample :
    LLMService.analyze_issue (fun _ => .ok (.error "Expecting value")) =
      (.error (.valueError "Invalid JSON in response: Expecting value"), 4) ∧
    PyExc.valueError "Invalid JSON in response: Expecting value" ≠
      PyExc.valueError "Failed to parse LLM response after 3 retries" := by
  constructor
  · have h := analyze_aux_allbad (fun _ => "Expecting value") 3 3 0 (le_refl 3)
    rw [Nat.sub_self] at h
    simpa [LLMService.analyze_issue] using h
  · decide
